import Mathlib

/-!
Shallow embedding of the forecast request composer and response normalizer
of the `weather-cli` repository (package `wthr`): the time-series
normalizer and response parser of `wthr/api/weather_client.py`, the field
schema of `wthr/models/forecast.py`, the forecast-mode resolution block of
`wthr/main.py`, and the query-parameter composition of
`WeatherAPIClient.get_weather`.

Python dictionaries are embedded as association lists in insertion order;
JSON values as the inductive `JValue`; Python `float`/`int` payload numbers
as `ℚ`/`ℤ` (the core never performs float arithmetic, it only moves values
around); fallible code returns `Option`.
-/

namespace WeatherCli

/-- A JSON-like value as it appears in provider payloads. -/
inductive JValue where
  | jstr (s : String)
  | jnum (q : ℚ)
  | jbool (b : Bool)
  | jnull
  | jlist (xs : List JValue)
  | jobj (kvs : List (String × JValue))
  deriving Repr

/-- Python `d[k]` / `k in d` on a dict embedded as an association list:
the first binding of the key (Python dicts have unique keys). -/
def dictGet (k : String) : List (String × JValue) → Option JValue
  | [] => none
  | (k', v) :: rest => if k' = k then some v else dictGet k rest

/-- Python `len` on a JSON value: defined on sized containers, a
`TypeError` (`none`) otherwise. -/
def pyLen : JValue → Option Nat
  | .jstr s => some s.length
  | .jlist xs => some xs.length
  | .jobj kvs => some kvs.length
  | _ => none

/-- Python truthiness of a JSON value (`if not data`). -/
def pyTruthy : JValue → Bool
  | .jnull => false
  | .jbool b => b
  | .jnum q => decide (q ≠ 0)
  | .jstr s => !s.isEmpty
  | .jlist xs => !xs.isEmpty
  | .jobj kvs => !kvs.isEmpty

/-- One output row of the normalizer: the inner loop body of
`WeatherAPIClient._normalize_timeseries` for a fixed index `i`
(`item[key] = values[i]` for every entry whose value is a list of
length `> i`, in dict iteration order). -/
def rowAt (data : List (String × JValue)) (i : Nat) : List (String × JValue) :=
  data.filterMap fun kv =>
    match kv.2 with
    | .jlist xs => (xs[i]?).map fun x => (kv.1, x)
    | _ => none

/-- `WeatherAPIClient._normalize_timeseries` on a dict argument:
returns `[]` when the dict is empty or has no `"time"` key, else one row
per index of `len(data["time"])`.  `none` models the `TypeError` raised
by `len` when the `"time"` value is unsized. -/
def _normalize_timeseries (data : List (String × JValue)) : Option (List (List (String × JValue))) :=
  if data.isEmpty || (dictGet "time" data).isNone then some []
  else
    match dictGet "time" data with
    | some tv => (pyLen tv).map fun count => (List.range count).map (rowAt data)
    | none => some []

/-! ## Field schema (`wthr/models/forecast.py`)

Each pydantic model's `model_fields`, in declaration order (base-class
fields `time`, `weather_code` first), as `(internal name, optional
provider alias)` pairs, exactly as declared in the source.  Note the base
field `time: datetime = Field()` declares no alias. -/

/-- `ForecastType` enum of `wthr/models/forecast.py`. -/
inductive ForecastType where
  | CURRENT
  | DAILY
  | HOURLY
  | MIXED
  deriving DecidableEq, Repr

namespace CurrentForecast

/-- `CurrentForecast.model_fields`: `(name, alias)` pairs in declaration order. -/
def model_fields : List (String × Option String) :=
  [("time", none),
   ("weather_code", some "weather_code"),
   ("temperature", some "temperature_2m"),
   ("apparent_temperature", some "apparent_temperature"),
   ("wind_speed", some "wind_speed_10m"),
   ("wind_direction", some "wind_direction_10m"),
   ("relative_humidity", some "relative_humidity_2m"),
   ("is_day", some "is_day")]

/-- `ForecastModel.get_request_fields` for `CurrentForecast`:
`[field.alias for field in cls.model_fields.values() if field.alias]`. -/
def get_request_fields : List String := model_fields.filterMap Prod.snd

end CurrentForecast

namespace DailyForecast

/-- `DailyForecast.model_fields`: `(name, alias)` pairs in declaration order. -/
def model_fields : List (String × Option String) :=
  [("time", none),
   ("weather_code", some "weather_code"),
   ("temperature_max", some "temperature_2m_max"),
   ("temperature_min", some "temperature_2m_min"),
   ("apparent_temperature_max", some "apparent_temperature_max"),
   ("apparent_temperature_min", some "apparent_temperature_min"),
   ("wind_speed_max", some "wind_speed_10m_max"),
   ("precipitation_probability_max", some "precipitation_probability_max"),
   ("precipitation_sum", some "precipitation_sum"),
   ("sunrise", some "sunrise"),
   ("sunset", some "sunset")]

/-- `ForecastModel.get_request_fields` for `DailyForecast`. -/
def get_request_fields : List String := model_fields.filterMap Prod.snd

end DailyForecast

namespace HourlyForecast

/-- `HourlyForecast.model_fields`: `(name, alias)` pairs in declaration order. -/
def model_fields : List (String × Option String) :=
  [("time", none),
   ("weather_code", some "weather_code"),
   ("temperature", some "temperature_2m"),
   ("apparent_temperature", some "apparent_temperature"),
   ("wind_speed", some "wind_speed_10m"),
   ("relative_humidity", some "relative_humidity_2m"),
   ("precipitation_probability", some "precipitation_probability"),
   ("cloud_cover", some "cloud_cover")]

/-- `ForecastModel.get_request_fields` for `HourlyForecast`. -/
def get_request_fields : List String := model_fields.filterMap Prod.snd

end HourlyForecast

/-! ## Forecast records and pydantic validation

Validation helpers model pydantic `model_validate` with validation by
alias (no `populate_by_name`): a required field must be present under its
provider alias (or its name, when no alias is declared, as for `time`)
with a coercible value; an `Optional[...] = None` field may be absent or
`null`.  `datetime` fields are modelled as the ISO strings the provider
sends. -/

/-- Required string-valued (datetime) field. -/
def reqStr (o : List (String × JValue)) (k : String) : Option String :=
  match dictGet k o with
  | some (.jstr s) => some s
  | _ => none

/-- Required int-valued field: a JSON number with integral value. -/
def reqInt (o : List (String × JValue)) (k : String) : Option Int :=
  match dictGet k o with
  | some (.jnum q) => if q.den = 1 then some q.num else none
  | _ => none

/-- Required float-valued field: any JSON number. -/
def reqFloat (o : List (String × JValue)) (k : String) : Option ℚ :=
  match dictGet k o with
  | some (.jnum q) => some q
  | _ => none

/-- Optional float-valued field (`Optional[float] = None`). -/
def optFloat (o : List (String × JValue)) (k : String) : Option (Option ℚ) :=
  match dictGet k o with
  | none => some none
  | some .jnull => some none
  | some (.jnum q) => some (some q)
  | some _ => none

/-- Optional int-valued field (`Optional[int] = None`). -/
def optInt (o : List (String × JValue)) (k : String) : Option (Option Int) :=
  match dictGet k o with
  | none => some none
  | some .jnull => some none
  | some (.jnum q) => if q.den = 1 then some (some q.num) else none
  | some _ => none

/-- The `CurrentForecast` record (`wthr/models/forecast.py`). -/
structure CurrentForecast where
  time : String
  weather_code : Int
  temperature : ℚ
  apparent_temperature : Option ℚ
  wind_speed : ℚ
  wind_direction : Option Int
  relative_humidity : Int
  is_day : Int
  deriving DecidableEq, Repr

/-- `CurrentForecast.model_validate` on a raw JSON value. -/
def CurrentForecast.model_validate (v : JValue) : Option CurrentForecast :=
  match v with
  | .jobj o => do
    let t ← reqStr o "time"
    let wc ← reqInt o "weather_code"
    let temp ← reqFloat o "temperature_2m"
    let appt ← optFloat o "apparent_temperature"
    let ws ← reqFloat o "wind_speed_10m"
    let wd ← optInt o "wind_direction_10m"
    let rh ← reqInt o "relative_humidity_2m"
    let isd ← reqInt o "is_day"
    if isd = 0 ∨ isd = 1 then
      some ⟨t, wc, temp, appt, ws, wd, rh, isd⟩
    else none
  | _ => none

/-- The `DailyForecast` record (`wthr/models/forecast.py`). -/
structure DailyForecast where
  time : String
  weather_code : Int
  temperature_max : ℚ
  temperature_min : ℚ
  apparent_temperature_max : Option ℚ
  apparent_temperature_min : Option ℚ
  wind_speed_max : Option ℚ
  precipitation_probability_max : Int
  precipitation_sum : Option ℚ
  sunrise : String
  sunset : String
  deriving DecidableEq, Repr

/-- `DailyForecast.model_validate` on a raw JSON value. -/
def DailyForecast.model_validate (v : JValue) : Option DailyForecast :=
  match v with
  | .jobj o => do
    let t ← reqStr o "time"
    let wc ← reqInt o "weather_code"
    let tmax ← reqFloat o "temperature_2m_max"
    let tmin ← reqFloat o "temperature_2m_min"
    let atmax ← optFloat o "apparent_temperature_max"
    let atmin ← optFloat o "apparent_temperature_min"
    let wsmax ← optFloat o "wind_speed_10m_max"
    let ppm ← reqInt o "precipitation_probability_max"
    let psum ← optFloat o "precipitation_sum"
    let rise ← reqStr o "sunrise"
    let sset ← reqStr o "sunset"
    some ⟨t, wc, tmax, tmin, atmax, atmin, wsmax, ppm, psum, rise, sset⟩
  | _ => none

/-- The `HourlyForecast` record (`wthr/models/forecast.py`). -/
structure HourlyForecast where
  time : String
  weather_code : Int
  temperature : ℚ
  apparent_temperature : Option ℚ
  wind_speed : Option ℚ
  relative_humidity : Option Int
  precipitation_probability : Option Int
  cloud_cover : Option Int
  deriving DecidableEq, Repr

/-- `HourlyForecast.model_validate` on a raw JSON value. -/
def HourlyForecast.model_validate (v : JValue) : Option HourlyForecast :=
  match v with
  | .jobj o => do
    let t ← reqStr o "time"
    let wc ← reqInt o "weather_code"
    let temp ← reqFloat o "temperature_2m"
    let appt ← optFloat o "apparent_temperature"
    let ws ← optFloat o "wind_speed_10m"
    let rh ← optInt o "relative_humidity_2m"
    let pp ← optInt o "precipitation_probability"
    let cc ← optInt o "cloud_cover"
    some ⟨t, wc, temp, appt, ws, rh, pp, cc⟩
  | _ => none

/-- The `Weather` aggregate (`wthr/models/weather.py`); every field has a
pydantic default, `location_name` defaulting to `"Unknown"`. -/
structure Weather where
  location_name : String := "Unknown"
  current : Option CurrentForecast := none
  daily : Option (List DailyForecast) := none
  hourly : Option (List HourlyForecast) := none
  deriving DecidableEq, Repr

/-! ## Response parser (`WeatherAPIClient._parse_weather_response`) -/

/-- `self._normalize_timeseries(raw_data[key])` on an arbitrary JSON
value.  A dict goes to `_normalize_timeseries`.  A falsy non-dict value
returns `[]` through the `if not data` guard; a truthy string or list
reaches the `"time" not in data` membership test (substring / element
membership in Python) and, on a hit, raises `TypeError` at
`data["time"]`; other truthy values raise `TypeError` at the `in` test. -/
def normalizeBlock : JValue → Option (List (List (String × JValue)))
  | .jobj kvs => _normalize_timeseries kvs
  | v =>
    if !(pyTruthy v) then some []
    else
      match v with
      | .jstr s => if (s.splitOn "time").length > 1 then none else some []
      | .jlist xs => if (xs.any fun x => match x with | .jstr s => s = "time" | _ => false) then none else some []
      | _ => none

/-- First `if` of `_parse_weather_response`: extract the `current` block
when the forecast type implies it and the key is present. -/
def stepCurrent (raw_data : List (String × JValue)) (forecast_type : ForecastType)
    (result : Weather) : Option Weather :=
  if forecast_type = ForecastType.CURRENT ∨ forecast_type = ForecastType.MIXED then
    match dictGet "current" raw_data with
    | some v => (CurrentForecast.model_validate v).map fun c => { result with current := some c }
    | none => some result
  else some result

/-- Second `if` of `_parse_weather_response`: normalize and validate the
`daily` block when implied and present. -/
def stepDaily (raw_data : List (String × JValue)) (forecast_type : ForecastType)
    (result : Weather) : Option Weather :=
  if forecast_type = ForecastType.DAILY ∨ forecast_type = ForecastType.MIXED then
    match dictGet "daily" raw_data with
    | some v =>
        (normalizeBlock v).bind fun rows =>
          (rows.mapM fun r => DailyForecast.model_validate (.jobj r)).map fun ds =>
            { result with daily := some ds }
    | none => some result
  else some result

/-- Third `if` of `_parse_weather_response`: normalize and validate the
`hourly` block when implied and present. -/
def stepHourly (raw_data : List (String × JValue)) (forecast_type : ForecastType)
    (result : Weather) : Option Weather :=
  if forecast_type = ForecastType.HOURLY ∨ forecast_type = ForecastType.MIXED then
    match dictGet "hourly" raw_data with
    | some v =>
        (normalizeBlock v).bind fun rows =>
          (rows.mapM fun r => HourlyForecast.model_validate (.jobj r)).map fun hs =>
            { result with hourly := some hs }
    | none => some result
  else some result

/-- `WeatherAPIClient._parse_weather_response`.  The source constructs
`Weather(location_display_name=location_display_name)`, but the model's
field is named `location_name`; pydantic's default extra-field behaviour
(`ignore`) silently drops the unknown keyword, so the aggregate starts
from the plain defaults (`location_name = "Unknown"`), which is what the
embedding records.  The three sequential `if` blocks then populate the
branches; a validation failure anywhere is a failure of the whole call. -/
def _parse_weather_response (raw_data : List (String × JValue))
    (forecast_type : ForecastType) (location_display_name : String) : Option Weather :=
  let _ := location_display_name
  (stepCurrent raw_data forecast_type {}).bind fun result =>
    (stepDaily raw_data forecast_type result).bind fun result =>
      stepHourly raw_data forecast_type result

/-! ## Forecast mode resolver (`wthr/main.py`, command `weather`) -/

/-- Python truthiness of an `Optional[int]`: `None` and `0` are falsy. -/
def truthyOptInt : Option Int → Bool
  | none => false
  | some n => n != 0

/-- `if not x: x = dflt` on an `Optional[int]` variable. -/
def defaultIfFalsy (o : Option Int) (dflt : Int) : Option Int :=
  if truthyOptInt o then o else some dflt

/-- The forecast-type resolution block of the `weather` CLI command:
the `if not any([mixed, d, days, h, hours]) ... elif ... elif ... elif`
chain, returning the resolved `ForecastType` together with the final
values of the `days` and `hours` variables. -/
def resolveForecastMode (d : Bool) (days : Option Int) (h : Bool) (hours : Option Int)
    (mixed : Bool) : ForecastType × Option Int × Option Int :=
  if !(mixed || d || truthyOptInt days || h || truthyOptInt hours) then
    (ForecastType.CURRENT, days, hours)
  else if mixed || ((d || truthyOptInt days) && (h || truthyOptInt hours)) then
    (ForecastType.MIXED, defaultIfFalsy days 4, defaultIfFalsy hours 12)
  else if d || truthyOptInt days then
    (ForecastType.DAILY, defaultIfFalsy days 4, hours)
  else
    (ForecastType.HOURLY, days, defaultIfFalsy hours 12)

/-! ## Request composer (`WeatherAPIClient.get_weather`, parameter block) -/

/-- `Location` (`wthr/models/location.py`); coordinates as rationals. -/
structure Location where
  display_name : String
  latitude : ℚ
  longitude : ℚ
  deriving DecidableEq, Repr

/-- A value of the query-parameter dict built by `get_weather`. -/
inductive ParamValue where
  | num (q : ℚ)
  | str (s : String)
  | strList (xs : List String)
  | int (n : Int)
  | optStr (s : Option String)
  deriving DecidableEq, Repr

/-- `min(max(x, lo), hi)` as written in `get_weather`. -/
def clampInt (x lo hi : Int) : Int := min (max x lo) hi

/-- The `params` dict built by `WeatherAPIClient.get_weather` before the
HTTP call, in insertion order: the five unconditional keys, then the
`current` / `daily` / `hourly` blocks gated on the forecast type, with
`forecast_days = min(max(days, 1), 16)` and
`forecast_hours = min(max(hours, 1), 168)`. -/
def get_weather_params (location : Location) (forecast_type : ForecastType)
    (days hours : Int) (timezone : String)
    (temperature_unit wind_speed_unit : Option String) : List (String × ParamValue) :=
  [("latitude", ParamValue.num location.latitude),
   ("longitude", ParamValue.num location.longitude),
   ("timezone", ParamValue.str timezone),
   ("temperature_unit", ParamValue.optStr temperature_unit),
   ("wind_speed_unit", ParamValue.optStr wind_speed_unit)]
  ++ (if forecast_type = ForecastType.CURRENT ∨ forecast_type = ForecastType.MIXED then
        [("current", ParamValue.strList CurrentForecast.get_request_fields)]
      else [])
  ++ (if forecast_type = ForecastType.DAILY ∨ forecast_type = ForecastType.MIXED then
        [("daily", ParamValue.strList DailyForecast.get_request_fields),
         ("forecast_days", ParamValue.int (clampInt days 1 16))]
      else [])
  ++ (if forecast_type = ForecastType.HOURLY ∨ forecast_type = ForecastType.MIXED then
        [("hourly", ParamValue.strList HourlyForecast.get_request_fields),
         ("forecast_hours", ParamValue.int (clampInt hours 1 168))]
      else [])

/-! ## Theorems -/

/-- Helper: in an association list with nodup keys, two bindings of the
same key carry the same value. -/
theorem eq_of_nodup_keys {α : Type} {l : List (String × α)}
    (hnd : (l.map Prod.fst).Nodup) {k : String} {a b : α}
    (ha : (k, a) ∈ l) (hb : (k, b) ∈ l) : a = b := by
  induction l with
  | nil => cases ha
  | cons hd tl ih =>
    have hnd' : hd.1 ∉ tl.map Prod.fst ∧ (tl.map Prod.fst).Nodup := by
      rw [List.map_cons] at hnd; exact List.nodup_cons.mp hnd
    rcases List.mem_cons.mp ha with ha' | ha' <;>
      rcases List.mem_cons.mp hb with hb' | hb'
    · exact congrArg Prod.snd (ha'.trans hb'.symm)
    · exfalso
      apply hnd'.1
      have hk : hd.1 = k := by rw [← ha']
      rw [hk]
      exact List.mem_map.mpr ⟨(k, b), hb', rfl⟩
    · exfalso
      apply hnd'.1
      have hk : hd.1 = k := by rw [← hb']
      rw [hk]
      exact List.mem_map.mpr ⟨(k, a), ha', rfl⟩
    · exact ih hnd'.2 ha' hb'

/-- C2: the forecast mode resolver's literal decision cases: all signals
unset gives Current with no counts; `-d` alone gives Daily with 4 days;
`--hours 6` alone gives Hourly with 6 hours; `-d --hours 6` gives Mixed
with 4 days and 6 hours; `--mixed` alone gives Mixed with 4 days and
12 hours. -/
theorem resolveForecastMode_literal_cases :
    resolveForecastMode false none false none false = (ForecastType.CURRENT, none, none) ∧
    resolveForecastMode true none false none false = (ForecastType.DAILY, some 4, none) ∧
    resolveForecastMode false none false (some 6) false = (ForecastType.HOURLY, none, some 6) ∧
    resolveForecastMode true none false (some 6) false = (ForecastType.MIXED, some 4, some 6) ∧
    resolveForecastMode false none false none true = (ForecastType.MIXED, some 4, some 12) := by
  decide

/-- C6 counterexample: supplying `explicitDays = 0` with every other
signal unset resolves to Current (0 is falsy in the `any` test), not to
Daily with `days = 0` as the claim requires. -/
theorem resolveForecastMode_days_zero_cex :
    resolveForecastMode false (some 0) false none false = (ForecastType.CURRENT, some 0, none) ∧
    (resolveForecastMode false (some 0) false none false).1 ≠ ForecastType.DAILY := by
  decide

/-- C6 (amended): for every nonzero explicit count the resolver treats it
as an intent signal and passes it through: nonzero `explicitDays` (with or
without `wantDaily`, no hourly signal, no `wantMixed`) gives Daily with
exactly that count, and symmetrically nonzero `explicitHours` gives
Hourly with exactly that count; a zero explicit count is falsy in Python
and is treated as absent. -/
theorem resolveForecastMode_explicit_nonzero (n : Int) (hn : n ≠ 0) :
    resolveForecastMode false (some n) false none false = (ForecastType.DAILY, some n, none) ∧
    resolveForecastMode true (some n) false none false = (ForecastType.DAILY, some n, none) ∧
    resolveForecastMode false none false (some n) false = (ForecastType.HOURLY, none, some n) ∧
    resolveForecastMode false none true (some n) false = (ForecastType.HOURLY, none, some n) := by
  have h : (n != 0) = true := by simpa using hn
  simp [resolveForecastMode, truthyOptInt, defaultIfFalsy, h]

/-- C6 witness: the amended statement at the concrete count 6. -/
theorem resolveForecastMode_explicit_nonzero_witness :
    resolveForecastMode false (some 6) false none false = (ForecastType.DAILY, some 6, none) :=
  (resolveForecastMode_explicit_nonzero 6 (by decide)).1

/-- C7 counterexample: the shared base field `time` is declared without a
provider alias, so `get_request_fields` excludes it from every variant's
request list — contradicting both "no field currently lacks an alias" and
"time belongs to every variant's schema". -/
theorem get_request_fields_time_cex :
    ("time", (none : Option String)) ∈ CurrentForecast.model_fields ∧
    ("time", (none : Option String)) ∈ DailyForecast.model_fields ∧
    ("time", (none : Option String)) ∈ HourlyForecast.model_fields ∧
    "time" ∉ CurrentForecast.get_request_fields ∧
    "time" ∉ DailyForecast.get_request_fields ∧
    "time" ∉ HourlyForecast.get_request_fields := by
  decide

/-- C7 (amended): each variant's request-field list is deterministic with
a fixed order (given by the explicit lists below), contains the provider
alias of every declared field that has one, and contains the shared base
field `weather_code`; the base field `time` declares no alias and is
excluded. -/
theorem get_request_fields_stable :
    CurrentForecast.get_request_fields =
      ["weather_code", "temperature_2m", "apparent_temperature", "wind_speed_10m",
       "wind_direction_10m", "relative_humidity_2m", "is_day"] ∧
    DailyForecast.get_request_fields =
      ["weather_code", "temperature_2m_max", "temperature_2m_min", "apparent_temperature_max",
       "apparent_temperature_min", "wind_speed_10m_max", "precipitation_probability_max",
       "precipitation_sum", "sunrise", "sunset"] ∧
    HourlyForecast.get_request_fields =
      ["weather_code", "temperature_2m", "apparent_temperature", "wind_speed_10m",
       "relative_humidity_2m", "precipitation_probability", "cloud_cover"] ∧
    (∀ nm al, (nm, some al) ∈ CurrentForecast.model_fields →
      al ∈ CurrentForecast.get_request_fields) ∧
    (∀ nm al, (nm, some al) ∈ DailyForecast.model_fields →
      al ∈ DailyForecast.get_request_fields) ∧
    (∀ nm al, (nm, some al) ∈ HourlyForecast.model_fields →
      al ∈ HourlyForecast.get_request_fields) := by
  refine ⟨rfl, rfl, rfl, ?_, ?_, ?_⟩ <;>
    exact fun nm al h => List.mem_filterMap.mpr ⟨(nm, some al), h, rfl⟩

/-- C7 witness: the aliased-field clause at the concrete field
`weather_code` of the current-forecast schema. -/
theorem get_request_fields_stable_witness :
    "weather_code" ∈ CurrentForecast.get_request_fields :=
  get_request_fields_stable.2.2.2.1 "weather_code" "weather_code" (by decide)

/-- C3: for every location and forecast type, the composed parameter set
always contains the latitude and longitude; it contains a `current` key
(carrying `CurrentForecast`'s field list) exactly when the type is
Current or Mixed; a `daily` key (with `DailyForecast`'s field list)
together with `forecast_days` exactly when the type is Daily or Mixed;
and an `hourly` key (with `HourlyForecast`'s field list) together with
`forecast_hours` exactly when the type is Hourly or Mixed — in
particular Current produces no daily or hourly keys. -/
theorem get_weather_params_blocks (location : Location) (forecast_type : ForecastType)
    (days hours : Int) (timezone : String) (temperature_unit wind_speed_unit : Option String) :
    ("latitude", ParamValue.num location.latitude) ∈
      get_weather_params location forecast_type days hours timezone temperature_unit wind_speed_unit ∧
    ("longitude", ParamValue.num location.longitude) ∈
      get_weather_params location forecast_type days hours timezone temperature_unit wind_speed_unit ∧
    ((∃ v, ("current", v) ∈
        get_weather_params location forecast_type days hours timezone temperature_unit wind_speed_unit) ↔
      forecast_type = ForecastType.CURRENT ∨ forecast_type = ForecastType.MIXED) ∧
    (("current", ParamValue.strList CurrentForecast.get_request_fields) ∈
        get_weather_params location forecast_type days hours timezone temperature_unit wind_speed_unit ↔
      forecast_type = ForecastType.CURRENT ∨ forecast_type = ForecastType.MIXED) ∧
    ((∃ v, ("daily", v) ∈
        get_weather_params location forecast_type days hours timezone temperature_unit wind_speed_unit) ↔
      forecast_type = ForecastType.DAILY ∨ forecast_type = ForecastType.MIXED) ∧
    (("daily", ParamValue.strList DailyForecast.get_request_fields) ∈
        get_weather_params location forecast_type days hours timezone temperature_unit wind_speed_unit ↔
      forecast_type = ForecastType.DAILY ∨ forecast_type = ForecastType.MIXED) ∧
    ((∃ v, ("forecast_days", v) ∈
        get_weather_params location forecast_type days hours timezone temperature_unit wind_speed_unit) ↔
      forecast_type = ForecastType.DAILY ∨ forecast_type = ForecastType.MIXED) ∧
    ((∃ v, ("hourly", v) ∈
        get_weather_params location forecast_type days hours timezone temperature_unit wind_speed_unit) ↔
      forecast_type = ForecastType.HOURLY ∨ forecast_type = ForecastType.MIXED) ∧
    (("hourly", ParamValue.strList HourlyForecast.get_request_fields) ∈
        get_weather_params location forecast_type days hours timezone temperature_unit wind_speed_unit ↔
      forecast_type = ForecastType.HOURLY ∨ forecast_type = ForecastType.MIXED) ∧
    ((∃ v, ("forecast_hours", v) ∈
        get_weather_params location forecast_type days hours timezone temperature_unit wind_speed_unit) ↔
      forecast_type = ForecastType.HOURLY ∨ forecast_type = ForecastType.MIXED) := by
  cases forecast_type <;> simp [get_weather_params]

/-- C5: the emitted `forecast_days` is `days` clamped to `[1, 16]` and
the emitted `forecast_hours` is `hours` clamped to `[1, 168]`: values
below the floor are raised to it, values above the ceiling are lowered to
it, in-range values pass through unchanged (days 0 becomes 1, 20 becomes
16, 7 stays 7); out-of-range input is corrected, never rejected. -/
theorem get_weather_params_clamping (location : Location) (forecast_type : ForecastType)
    (days hours : Int) (timezone : String) (temperature_unit wind_speed_unit : Option String) :
    ((forecast_type = ForecastType.DAILY ∨ forecast_type = ForecastType.MIXED) →
      ("forecast_days", ParamValue.int (clampInt days 1 16)) ∈
        get_weather_params location forecast_type days hours timezone temperature_unit wind_speed_unit) ∧
    ((forecast_type = ForecastType.HOURLY ∨ forecast_type = ForecastType.MIXED) →
      ("forecast_hours", ParamValue.int (clampInt hours 1 168)) ∈
        get_weather_params location forecast_type days hours timezone temperature_unit wind_speed_unit) ∧
    (days < 1 → clampInt days 1 16 = 1) ∧
    (16 < days → clampInt days 1 16 = 16) ∧
    (1 ≤ days → days ≤ 16 → clampInt days 1 16 = days) ∧
    (hours < 1 → clampInt hours 1 168 = 1) ∧
    (168 < hours → clampInt hours 1 168 = 168) ∧
    (1 ≤ hours → hours ≤ 168 → clampInt hours 1 168 = hours) ∧
    ("forecast_days", ParamValue.int 1) ∈
      get_weather_params location ForecastType.MIXED 0 hours timezone temperature_unit wind_speed_unit ∧
    ("forecast_days", ParamValue.int 16) ∈
      get_weather_params location ForecastType.MIXED 20 hours timezone temperature_unit wind_speed_unit ∧
    ("forecast_days", ParamValue.int 7) ∈
      get_weather_params location ForecastType.MIXED 7 hours timezone temperature_unit wind_speed_unit := by
  refine ⟨?_, ?_, ?_, ?_, ?_, ?_, ?_, ?_, ?_, ?_, ?_⟩
  · rintro (rfl | rfl) <;> simp [get_weather_params]
  · rintro (rfl | rfl) <;> simp [get_weather_params]
  · intro h; unfold clampInt; omega
  · intro h; unfold clampInt; omega
  · intro h1 h2; unfold clampInt; omega
  · intro h; unfold clampInt; omega
  · intro h; unfold clampInt; omega
  · intro h1 h2; unfold clampInt; omega
  · have : clampInt 0 1 16 = 1 := by unfold clampInt; omega
    simpa [this] using (by simp [get_weather_params] :
      ("forecast_days", ParamValue.int (clampInt 0 1 16)) ∈
        get_weather_params location ForecastType.MIXED 0 hours timezone temperature_unit wind_speed_unit)
  · have : clampInt 20 1 16 = 16 := by unfold clampInt; omega
    simpa [this] using (by simp [get_weather_params] :
      ("forecast_days", ParamValue.int (clampInt 20 1 16)) ∈
        get_weather_params location ForecastType.MIXED 20 hours timezone temperature_unit wind_speed_unit)
  · have : clampInt 7 1 16 = 7 := by unfold clampInt; omega
    simpa [this] using (by simp [get_weather_params] :
      ("forecast_days", ParamValue.int (clampInt 7 1 16)) ∈
        get_weather_params location ForecastType.MIXED 7 hours timezone temperature_unit wind_speed_unit)

/-- C5 witness: the clamping clauses at concrete out-of-range and
in-range counts for a concrete composed request. -/
theorem get_weather_params_clamping_witness :
    clampInt (-3) 1 16 = 1 ∧ clampInt 99 1 16 = 16 ∧ clampInt 5 1 16 = 5 ∧
    ("forecast_hours", ParamValue.int (clampInt 200 1 168)) ∈
      get_weather_params ⟨"x", 0, 0⟩ ForecastType.HOURLY 4 200 "auto" none none :=
  ⟨(get_weather_params_clamping ⟨"x", 0, 0⟩ ForecastType.MIXED (-3) 0 "auto" none none).2.2.1
      (by decide),
   (get_weather_params_clamping ⟨"x", 0, 0⟩ ForecastType.MIXED 99 0 "auto" none none).2.2.2.1
      (by decide),
   (get_weather_params_clamping ⟨"x", 0, 0⟩ ForecastType.MIXED 5 0 "auto" none none).2.2.2.2.1
      (by decide) (by decide),
   (get_weather_params_clamping ⟨"x", 0, 0⟩ ForecastType.HOURLY 4 200 "auto" none none).2.1
      (Or.inl rfl)⟩

/-- Helper: when the `"time"` entry is a list of length `n`, the
normalizer succeeds and returns the rows at indices `0, …, n-1`. -/
theorem _normalize_timeseries_eq_of_time_list {data : List (String × JValue)}
    {ts : List JValue} (h : dictGet "time" data = some (JValue.jlist ts)) :
    _normalize_timeseries data = some ((List.range ts.length).map (rowAt data)) := by
  have hne : data.isEmpty = false := by
    cases data with
    | nil => simp [dictGet] at h
    | cons hd tl => rfl
  simp [_normalize_timeseries, h, hne, pyLen]

/-- Helper: membership characterization of a normalizer row: a pair
`(k, x)` is in `rowAt data i` exactly when some entry `(k, xs)` of `data`
is a list with `xs[i] = x`. -/
theorem mem_rowAt_iff {data : List (String × JValue)} {i : Nat} {k : String} {x : JValue} :
    (k, x) ∈ rowAt data i ↔ ∃ xs : List JValue, (k, JValue.jlist xs) ∈ data ∧ xs[i]? = some x := by
  unfold rowAt
  rw [List.mem_filterMap]
  constructor
  · rintro ⟨⟨k0, v0⟩, hmem, hf⟩
    cases v0 with
    | jlist xs =>
      simp only [Option.map_eq_some'] at hf
      rcases hf with ⟨x0, hx0, hpair⟩
      rcases Prod.mk.injEq .. ▸ hpair with ⟨hk, hx⟩
      exact ⟨xs, by rwa [hk] at hmem, by rwa [hx] at hx0⟩
    | jstr s => simp at hf
    | jnum q => simp at hf
    | jbool b => simp at hf
    | jnull => simp at hf
    | jobj kvs => simp at hf
  · rintro ⟨xs, hmem, hx⟩
    exact ⟨(k, JValue.jlist xs), hmem, by simp [hx]⟩

/-- C1: for every input dict whose `"time"` entry is a list of length
`n`, the normalizer succeeds with exactly `n` output records, and record
`i` contains the pair `(k, xs[i])` for an entry `(k, xs)` exactly when
`xs` is a list longer than `i` (entries whose array is too short, or not
an array, are simply omitted); on the round-trip example of the spec the
output is the two fully populated row records in index order. -/
theorem normalize_timeseries_rows :
    (∀ (data : List (String × JValue)) (ts : List JValue),
      dictGet "time" data = some (JValue.jlist ts) →
      ∃ rows, _normalize_timeseries data = some rows ∧
        rows.length = ts.length ∧
        ∀ (i : Nat) (row : List (String × JValue)), rows[i]? = some row →
          (∀ (k : String) (xs : List JValue) (x : JValue),
            (k, JValue.jlist xs) ∈ data → xs[i]? = some x → (k, x) ∈ row) ∧
          (∀ (k : String) (x : JValue), (k, x) ∈ row →
            ∃ xs : List JValue, (k, JValue.jlist xs) ∈ data ∧ xs[i]? = some x)) ∧
    _normalize_timeseries
        [("time", .jlist [.jstr "t0", .jstr "t1"]),
         ("weather_code", .jlist [.jnum 1, .jnum 2]),
         ("temperature_2m", .jlist [.jnum 10, .jnum 12])] =
      some [[("time", .jstr "t0"), ("weather_code", .jnum 1), ("temperature_2m", .jnum 10)],
            [("time", .jstr "t1"), ("weather_code", .jnum 2), ("temperature_2m", .jnum 12)]] := by
  constructor
  · intro data ts h
    refine ⟨(List.range ts.length).map (rowAt data),
      _normalize_timeseries_eq_of_time_list h, by simp, ?_⟩
    intro i row hrow
    have hi : i < ts.length := by
      by_contra hge
      rw [List.getElem?_map, List.getElem?_eq_none
        (by simpa [List.length_range] using hge)] at hrow
      simp at hrow
    have hrow' : row = rowAt data i := by
      rw [List.getElem?_map, List.getElem?_range hi] at hrow
      simpa using hrow.symm
    subst hrow'
    constructor
    · intro k xs x hmem hx
      exact mem_rowAt_iff.mpr ⟨xs, hmem, hx⟩
    · intro k x hmem
      exact mem_rowAt_iff.mp hmem
  · rfl

/-- C1 witness: the row-contents clause applied to the spec's
short-array example, yielding its first record's entries. -/
theorem normalize_timeseries_rows_witness :
    ∃ rows, _normalize_timeseries
        [("time", .jlist [.jstr "a0", .jstr "a1"]), ("x", .jlist [.jnum 5])] = some rows ∧
      rows.length = 2 ∧
      ∀ (i : Nat) (row : List (String × JValue)), rows[i]? = some row →
        (∀ (k : String) (xs : List JValue) (x : JValue),
          (k, JValue.jlist xs) ∈
            [("time", JValue.jlist [.jstr "a0", .jstr "a1"]), ("x", JValue.jlist [.jnum 5])] →
          xs[i]? = some x → (k, x) ∈ row) ∧
        (∀ (k : String) (x : JValue), (k, x) ∈ row →
          ∃ xs : List JValue,
            (k, JValue.jlist xs) ∈
              [("time", JValue.jlist [.jstr "a0", .jstr "a1"]), ("x", JValue.jlist [.jnum 5])] ∧
            xs[i]? = some x) :=
  normalize_timeseries_rows.1
    [("time", .jlist [.jstr "a0", .jstr "a1"]), ("x", .jlist [.jnum 5])]
    [.jstr "a0", .jstr "a1"] rfl

/-- C9: the normalizer returns the empty row list, rather than failing,
on the empty dict and on every dict without a `"time"` entry; in
particular on the spec's `(foo, [1, 2])` example. -/
theorem normalize_timeseries_defensive_empty :
    _normalize_timeseries [] = some [] ∧
    (∀ data : List (String × JValue),
      dictGet "time" data = none → _normalize_timeseries data = some []) ∧
    _normalize_timeseries [("foo", .jlist [.jnum 1, .jnum 2])] = some [] := by
  refine ⟨rfl, ?_, rfl⟩
  intro data h
  simp [_normalize_timeseries, h]

/-- C9 witness: the no-`"time"`-entry clause at a concrete dict. -/
theorem normalize_timeseries_defensive_empty_witness :
    _normalize_timeseries [("bar", .jnull)] = some [] :=
  normalize_timeseries_defensive_empty.2.1 [("bar", .jnull)] rfl

/-- C10: whenever the `"time"` entry is a list, the normalizer succeeds
regardless of the other entries' types or lengths; every pair of every
output record comes from an entry whose value is a list (so record keys
are a subset of the list-valued keys), and an entry whose value is not a
list contributes no pair to any record. -/
theorem normalize_timeseries_totality :
    ∀ (data : List (String × JValue)) (ts : List JValue),
      dictGet "time" data = some (JValue.jlist ts) →
      ∃ rows, _normalize_timeseries data = some rows ∧
        (∀ row ∈ rows, ∀ kv ∈ row,
          ∃ xs : List JValue, (kv.1, JValue.jlist xs) ∈ data ∧ kv.2 ∈ xs) ∧
        ((data.map Prod.fst).Nodup →
          ∀ (k : String) (v : JValue), (k, v) ∈ data →
            (∀ xs : List JValue, v ≠ JValue.jlist xs) →
            ∀ row ∈ rows, ∀ x : JValue, (k, x) ∉ row) := by
  intro data ts h
  refine ⟨(List.range ts.length).map (rowAt data),
    _normalize_timeseries_eq_of_time_list h, ?_, ?_⟩
  · intro row hrow kv hkv
    rcases List.mem_map.mp hrow with ⟨i, _, rfl⟩
    rcases mem_rowAt_iff.mp (show (kv.1, kv.2) ∈ rowAt data i from hkv) with ⟨xs, hmem, hx⟩
    exact ⟨xs, hmem, List.getElem?_mem hx⟩
  · intro hnd k v hmem hnotlist row hrow x hx
    rcases List.mem_map.mp hrow with ⟨i, _, rfl⟩
    rcases mem_rowAt_iff.mp hx with ⟨xs, hmem', _⟩
    exact hnotlist xs (eq_of_nodup_keys hnd hmem hmem')

/-- C10 witness: a concrete dict with a scalar entry next to the time
series, on which the theorem's hypotheses hold by computation. -/
theorem normalize_timeseries_totality_witness :
    ∃ rows, _normalize_timeseries
        [("time", .jlist [.jnum 1]), ("units", .jstr "C")] = some rows ∧
      (∀ row ∈ rows, ∀ kv ∈ row,
        ∃ xs : List JValue,
          (kv.1, JValue.jlist xs) ∈
            [("time", JValue.jlist [.jnum 1]), ("units", JValue.jstr "C")] ∧ kv.2 ∈ xs) ∧
      (((([("time", JValue.jlist [.jnum 1]), ("units", JValue.jstr "C")] :
            List (String × JValue)).map Prod.fst).Nodup) →
        ∀ (k : String) (v : JValue),
          (k, v) ∈ [("time", JValue.jlist [.jnum 1]), ("units", JValue.jstr "C")] →
          (∀ xs : List JValue, v ≠ JValue.jlist xs) →
          ∀ row ∈ rows, ∀ x : JValue, (k, x) ∉ row) :=
  normalize_timeseries_totality
    [("time", .jlist [.jnum 1]), ("units", .jstr "C")] [.jnum 1] rfl

/-- Helper: what the `current` extraction step does to the aggregate:
`location_name`, `daily`, `hourly` are untouched, and on success the
`current` branch is populated exactly when the type implies it, the key
is present, or it already was populated. -/
theorem stepCurrent_spec {raw_data : List (String × JValue)} {forecast_type : ForecastType}
    {w w' : Weather} (h : stepCurrent raw_data forecast_type w = some w') :
    w'.location_name = w.location_name ∧ w'.daily = w.daily ∧ w'.hourly = w.hourly ∧
    (w'.current.isSome ↔
      (((forecast_type = ForecastType.CURRENT ∨ forecast_type = ForecastType.MIXED) ∧
        (dictGet "current" raw_data).isSome) ∨ w.current.isSome)) := by
  unfold stepCurrent at h
  split at h
  · rename_i hgate
    split at h
    · rename_i v hcur
      cases hval : CurrentForecast.model_validate v with
      | none => rw [hval] at h; simp at h
      | some c =>
        rw [hval] at h
        simp only [Option.map_some'] at h
        cases h
        simp [hgate, hcur]
    · rename_i hcur
      cases h
      simp [hcur]
  · rename_i hgate
    cases h
    simp [hgate]

/-- Helper: what the `daily` extraction step does to the aggregate. -/
theorem stepDaily_spec {raw_data : List (String × JValue)} {forecast_type : ForecastType}
    {w w' : Weather} (h : stepDaily raw_data forecast_type w = some w') :
    w'.location_name = w.location_name ∧ w'.current = w.current ∧ w'.hourly = w.hourly ∧
    (w'.daily.isSome ↔
      (((forecast_type = ForecastType.DAILY ∨ forecast_type = ForecastType.MIXED) ∧
        (dictGet "daily" raw_data).isSome) ∨ w.daily.isSome)) := by
  unfold stepDaily at h
  split at h
  · rename_i hgate
    split at h
    · rename_i v hdv
      cases hnb : normalizeBlock v with
      | none => rw [hnb] at h; simp at h
      | some rows =>
        rw [hnb] at h
        simp only [Option.some_bind] at h
        cases hm : rows.mapM fun r => DailyForecast.model_validate (.jobj r) with
        | none => rw [hm] at h; simp at h
        | some ds =>
          rw [hm] at h
          simp only [Option.map_some'] at h
          cases h
          simp [hgate, hdv]
    · rename_i hdv
      cases h
      simp [hdv]
  · rename_i hgate
    cases h
    simp [hgate]

/-- Helper: what the `hourly` extraction step does to the aggregate. -/
theorem stepHourly_spec {raw_data : List (String × JValue)} {forecast_type : ForecastType}
    {w w' : Weather} (h : stepHourly raw_data forecast_type w = some w') :
    w'.location_name = w.location_name ∧ w'.current = w.current ∧ w'.daily = w.daily ∧
    (w'.hourly.isSome ↔
      (((forecast_type = ForecastType.HOURLY ∨ forecast_type = ForecastType.MIXED) ∧
        (dictGet "hourly" raw_data).isSome) ∨ w.hourly.isSome)) := by
  unfold stepHourly at h
  split at h
  · rename_i hgate
    split at h
    · rename_i v hdv
      cases hnb : normalizeBlock v with
      | none => rw [hnb] at h; simp at h
      | some rows =>
        rw [hnb] at h
        simp only [Option.some_bind] at h
        cases hm : rows.mapM fun r => HourlyForecast.model_validate (.jobj r) with
        | none => rw [hm] at h; simp at h
        | some hs =>
          rw [hm] at h
          simp only [Option.map_some'] at h
          cases h
          simp [hgate, hdv]
    · rename_i hdv
      cases h
      simp [hdv]
  · rename_i hgate
    cases h
    simp [hgate]

/-- C4: whenever the parse succeeds, the aggregate's `current` branch is
populated exactly when the requested type is Current or Mixed and the
payload has a `current` key, the `daily` branch exactly when the type is
Daily or Mixed and the payload has a `daily` key, and the `hourly`
branch exactly when the type is Hourly or Mixed and the payload has an
`hourly` key; an empty payload parses successfully (for every type) to
the all-unset aggregate, and a payload carrying a fully valid `current`
block requested with type Daily leaves `current` unset while the same
payload requested with type Current populates it. -/
theorem parse_weather_response_gating :
    (∀ (raw_data : List (String × JValue)) (forecast_type : ForecastType)
        (location_display_name : String) (w : Weather),
      _parse_weather_response raw_data forecast_type location_display_name = some w →
        (w.current.isSome ↔
          (forecast_type = ForecastType.CURRENT ∨ forecast_type = ForecastType.MIXED) ∧
            (dictGet "current" raw_data).isSome) ∧
        (w.daily.isSome ↔
          (forecast_type = ForecastType.DAILY ∨ forecast_type = ForecastType.MIXED) ∧
            (dictGet "daily" raw_data).isSome) ∧
        (w.hourly.isSome ↔
          (forecast_type = ForecastType.HOURLY ∨ forecast_type = ForecastType.MIXED) ∧
            (dictGet "hourly" raw_data).isSome)) ∧
    (∀ (forecast_type : ForecastType) (location_display_name : String),
      _parse_weather_response [] forecast_type location_display_name = some {}) ∧
    _parse_weather_response
        [("current", .jobj [("time", .jstr "2024-05-01T12:00"), ("weather_code", .jnum 3),
          ("temperature_2m", .jnum 21), ("wind_speed_10m", .jnum 5),
          ("relative_humidity_2m", .jnum 60), ("is_day", .jnum 1)])]
        ForecastType.DAILY "Unused" = some {} ∧
    _parse_weather_response
        [("current", .jobj [("time", .jstr "2024-05-01T12:00"), ("weather_code", .jnum 3),
          ("temperature_2m", .jnum 21), ("wind_speed_10m", .jnum 5),
          ("relative_humidity_2m", .jnum 60), ("is_day", .jnum 1)])]
        ForecastType.CURRENT "Unused" =
      some { current := some ⟨"2024-05-01T12:00", 3, 21, none, 5, none, 60, 1⟩ } := by
  refine ⟨?_, ?_, rfl, rfl⟩
  · intro raw_data forecast_type location_display_name w h
    simp only [_parse_weather_response] at h
    rcases Option.bind_eq_some.mp h with ⟨w1, h1, h23⟩
    rcases Option.bind_eq_some.mp h23 with ⟨w2, h2, h3⟩
    obtain ⟨_, hd1, hh1, hc1⟩ := stepCurrent_spec h1
    obtain ⟨_, hc2, hh2, hd2⟩ := stepDaily_spec h2
    obtain ⟨_, hc3, hd3, hh3⟩ := stepHourly_spec h3
    refine ⟨?_, ?_, ?_⟩
    · rw [hc3, hc2]
      simpa using hc1
    · rw [hd3, hd2, hd1]
      simp
    · rw [hh3, hh2, hh1]
      simp
  · intro forecast_type location_display_name
    cases forecast_type <;> rfl

/-- C4 witness: the gating clauses applied to a concrete payload that
carries a `current` key while the requested type is Daily. -/
theorem parse_weather_response_gating_witness :
    (Weather.current ({} : Weather)).isSome = true ↔
      (ForecastType.DAILY = ForecastType.CURRENT ∨ ForecastType.DAILY = ForecastType.MIXED) ∧
        (dictGet "current" [("current", JValue.jnull)]).isSome = true :=
  (parse_weather_response_gating.1 [("current", JValue.jnull)]
    ForecastType.DAILY "w" {} rfl).1

/-- C8: the parser never carries the display name into the aggregate:
the source passes the keyword `location_display_name` to the `Weather`
constructor, but the model's field is `location_name`, so pydantic drops
the argument and every successfully parsed aggregate keeps the default
`"Unknown"` — in particular for the display name `"Paris, France"` the
result's name field is `"Unknown"`, not `"Paris, France"`. -/
theorem parse_weather_response_location_name :
    (∀ (raw_data : List (String × JValue)) (forecast_type : ForecastType)
        (location_display_name : String) (w : Weather),
      _parse_weather_response raw_data forecast_type location_display_name = some w →
        w.location_name = "Unknown") ∧
    _parse_weather_response [] ForecastType.CURRENT "Paris, France" = some {} ∧
    ({} : Weather).location_name = "Unknown" ∧
    "Unknown" ≠ "Paris, France" := by
  refine ⟨?_, rfl, rfl, by decide⟩
  intro raw_data forecast_type location_display_name w h
  simp only [_parse_weather_response] at h
  rcases Option.bind_eq_some.mp h with ⟨w1, h1, h23⟩
  rcases Option.bind_eq_some.mp h23 with ⟨w2, h2, h3⟩
  rw [(stepHourly_spec h3).1, (stepDaily_spec h2).1, (stepCurrent_spec h1).1]

/-- C8 witness: the constant-name clause applied to a concrete parse. -/
theorem parse_weather_response_location_name_witness :
    ({} : Weather).location_name = "Unknown" :=
  parse_weather_response_location_name.1 [] ForecastType.CURRENT "Paris, France" {} rfl

end WeatherCli
